import Mathlib

/- Shallow embedding of the FastAPI-Docker-Manager control plane.

   The embedding covers the code the claims are about:
   - the image activation operations of app/services/image_service.py
     (class of docker images: load_new_image,
     load_or_activate_docker_image_uploaded, _deactivate_other_images),
   - the container lifecycle service app/services/container_service.py
     (create_container, _run_new_container, stop_container, get_container,
     reconcile_running_containers),
   - the memory-limit computation shared with
     app/services/docker_runtime.py (DockerSDKRuntime.run).

   Repositories are modelled as lists of records in listing order, matching
   the repository contracts of app/domain/ports.py: create appends a row,
   update rewrites the rows whose primary key matches, fetch_one and find
   take the first match.  The external Docker runtime is a parameter: its
   answers (load results, container status, run outcomes) are inputs of the
   operations, and the requests issued to it are returned so that theorems
   can speak about them. -/

/-- A DockerImage row as persisted in docker_images (app/models/db.py) and
manipulated by image_service.py: primary key id, runtime image id docker_id,
link uploaded_image_id, name, tag and the activation flag is_active.
Identifiers are opaque and modelled as naturals; created_at plays no role in
control flow and is omitted. -/
structure DockerImage where
  id : Nat
  docker_id : Nat
  uploaded_image_id : Option Nat
  name : String
  tag : String
  is_active : Bool
  deriving DecidableEq

/-- An UploadedImage row as consumed by the activation operations: its id,
its filename (the implicit image name) and the stored tarball path. -/
structure UploadedImage where
  id : Nat
  filename : String
  path : String
  deriving DecidableEq

/-- SQLDockerImageRepository.update (app/repositories/image_repository.py):
the SQL update rewrites, on every row whose primary key equals the id of the
given record, exactly the columns its values clause lists — docker_id,
uploaded_image_id, created_at and is_active.  It never writes name or tag,
which keep their stored values (created_at plays no role in control flow and
is omitted from the model). -/
def repoUpdate (repo : List DockerImage) (img : DockerImage) : List DockerImage :=
  repo.map (fun r =>
    if r.id = img.id then
      { r with
          docker_id := img.docker_id,
          uploaded_image_id := img.uploaded_image_id,
          is_active := img.is_active }
    else r)

/-- The test on one row used by both deactivation loops of image_service.py:
the row carries the given name and tag and is currently active. -/
def activeMatch (name tag : String) (img : DockerImage) : Bool :=
  img.name == name && img.tag == tag && img.is_active

/-- The full per-row condition of the deactivation loops: an active
(name, tag) match that is not the excepted row.  With exceptId none this is
the inline loop of load_new_image; with exceptId some it is the condition of
_deactivate_other_images. -/
def deactCond (name tag : String) (exceptId : Option Nat) (img : DockerImage) : Bool :=
  activeMatch name tag img &&
    (match exceptId with
     | none => true
     | some i => img.id != i)

/-- The deactivation loop shared by load_new_image (exceptId = none, inline
loop over repo.list()) and _deactivate_other_images (exceptId = some id).
The snapshot is the list fetched once before the loop; each matching row is
rewritten with is_active := false by a separate repository update.  Returns
the final repository together with the repository state after every write
(the write trace, innermost states first). -/
def deactivate_images (name tag : String) (exceptId : Option Nat)
    (snapshot repo : List DockerImage) :
    List DockerImage × List (List DockerImage) :=
  match snapshot with
  | [] => (repo, [])
  | img :: rest =>
    if deactCond name tag exceptId img then
      let repo1 := repoUpdate repo { img with is_active := false }
      let p := deactivate_images name tag exceptId rest repo1
      (p.1, repo1 :: p.2)
    else
      deactivate_images name tag exceptId rest repo

/-- Result of one activation operation: the final repository, the returned
DockerImage, the number of runtime load_image calls made, and the repository
state after every repository write (in write order). -/
structure ActResult where
  repo : List DockerImage
  ret : DockerImage
  loads : Nat
  states : List (List DockerImage)
  deriving DecidableEq

/-- image_service.py, _DockerImages.load_new_image: under the (name, tag)
lock, load the tarball into the runtime (one load_image call returning
loadedId), deactivate every active row sharing (uploaded.filename, latest),
then create a fresh active row.  freshId is the uuid4 of the new row,
loadedId the runtime image id answered by load_image. -/
def load_new_image (uploaded : UploadedImage) (freshId loadedId : Nat)
    (repo : List DockerImage) : ActResult :=
  let name := uploaded.filename
  let tag := "latest"
  let p := deactivate_images name tag none repo repo
  let img : DockerImage :=
    { id := freshId, docker_id := loadedId, uploaded_image_id := some uploaded.id,
      name := name, tag := tag, is_active := true }
  let repo2 := p.1 ++ [img]
  { repo := repo2, ret := img, loads := 1, states := p.2 ++ [repo2] }

/-- image_service.py, _DockerImages.load_or_activate_docker_image_uploaded:
under the per-uploaded-id lock, find the first row referencing the uploaded
image.  If it exists and is active, return it unchanged with no load.  If it
exists inactive, load (one call), rewrite it active with the fresh runtime id
and (uploaded.filename, latest), then deactivate the other rows of that
(name, tag).  Otherwise delegate to load_new_image. -/
def load_or_activate_docker_image_uploaded (uploaded : UploadedImage)
    (freshId loadedId : Nat) (repo : List DockerImage) : ActResult :=
  match repo.find? (fun img => img.uploaded_image_id == some uploaded.id) with
  | some existing =>
    if existing.is_active then
      { repo := repo, ret := existing, loads := 0, states := [] }
    else
      let ex1 : DockerImage :=
        { existing with
            docker_id := loadedId, is_active := true,
            name := uploaded.filename, tag := "latest" }
      let repo1 := repoUpdate repo ex1
      let p := deactivate_images ex1.name ex1.tag (some ex1.id) repo1 repo1
      { repo := p.1, ret := ex1, loads := 1, states := repo1 :: p.2 }
  | none => load_new_image uploaded freshId loadedId repo

/-- One completed activation operation, with the uuid4 of the row it would
create and the runtime image id its load_image call would answer. -/
inductive ImageOp where
  | loadNew (uploaded : UploadedImage) (freshId loadedId : Nat)
  | loadOrActivate (uploaded : UploadedImage) (freshId loadedId : Nat)
  deriving DecidableEq

/-- Run one activation operation on the repository. -/
def applyImageOp (op : ImageOp) (repo : List DockerImage) : ActResult :=
  match op with
  | ImageOp.loadNew u f l => load_new_image u f l repo
  | ImageOp.loadOrActivate u f l => load_or_activate_docker_image_uploaded u f l repo

/-- Run a sequence of completed activation operations. -/
def runImageOps (ops : List ImageOp) (repo : List DockerImage) : List DockerImage :=
  match ops with
  | [] => repo
  | op :: rest => runImageOps rest (applyImageOp op repo).repo

/-- The uuid4 an operation would assign to a newly created row. -/
def opFreshId : ImageOp → Nat
  | ImageOp.loadNew _ f _ => f
  | ImageOp.loadOrActivate _ f _ => f

/-- Freshness of the uuid4 values along a run: each operation is handed an id
absent from the repository it acts on (uuid4 collisions do not happen). -/
def freshSeq : List ImageOp → List DockerImage → Bool
  | [], _ => true
  | op :: rest, repo =>
    !((repo.map DockerImage.id).elem (opFreshId op)) &&
      freshSeq rest (applyImageOp op repo).repo

/-- The UploadedImage record an operation passes to the service. -/
def opUploaded : ImageOp → UploadedImage
  | ImageOp.loadNew u _ _ => u
  | ImageOp.loadOrActivate u _ _ => u

/-- Name consistency along a run: when an operation acts, every DockerImage
row referencing its UploadedImage carries that upload's filename as name and
the tag latest.  This holds in the program because rows referencing an
upload are created by load_new_image with exactly these values (persisted by
repo.create), SQLDockerImageRepository.update never writes name or tag, an
UploadedImage's filename is written once by register_upload, and the service
entry points fetch the upload from its repository by id. -/
def consSeq : List ImageOp → List DockerImage → Bool
  | [], _ => true
  | op :: rest, repo =>
    repo.all (fun r =>
      r.uploaded_image_id != some (opUploaded op).id ||
        (r.name == (opUploaded op).filename && r.tag == "latest")) &&
      consSeq rest (applyImageOp op repo).repo

/-- Number of active rows carrying the given (name, tag). -/
def activeCount (name tag : String) (repo : List DockerImage) : Nat :=
  (repo.filter (activeMatch name tag)).length

/-- The central invariant: at most one active DockerImage row per
(name, tag) pair. -/
def ActiveUnique (repo : List DockerImage) : Prop :=
  ∀ name tag, activeCount name tag repo ≤ 1

/-- Primary-key uniqueness of the docker_images table. -/
def idsNodup (repo : List DockerImage) : Prop :=
  (repo.map DockerImage.id).Nodup

/-- A container row as persisted in containers (app/models/db.py) and
returned by the service as the Container dataclass: both carry exactly these
fields, so one record type models both.  The image reference is optional
because create_container stores image_ref = image, which may be absent.
cpu_limit (a float never computed on) is carried as an opaque integer. -/
structure ContainerRow where
  id : Nat
  docker_image_id : Option Nat
  image : Option String
  status : String
  cpu_limit : Int
  memory_limit_mb : Int
  internal_port : Nat
  exposed_port : Option Nat
  docker_id : Option String
  deriving DecidableEq

/-- What docker_client.containers.get reports for a runtime id during
reconciliation: the object is absent (docker.errors.NotFound) or present
with a status string and a current host-port binding.  The binding is part
of runtime truth even though reconcile_running_containers never reads it. -/
inductive RtView where
  | absent
  | present (status : String) (exposedPort : Option Nat)
  deriving DecidableEq

/-- A SQL update on the containers table scoped to one primary key: rewrite
the columns set by f on every row whose id matches. -/
def dbUpdate (db : List ContainerRow) (cid : Nat) (f : ContainerRow → ContainerRow) :
    List ContainerRow :=
  db.map (fun r => if r.id = cid then f r else r)

/-- The per-row body of reconcile_running_containers, iterating the snapshot
of rows that had status running: a row without a docker_id is marked failed;
a row whose runtime object is absent is marked failed with docker_id
cleared; a present but not running object is marked stopped with
exposed_port cleared; a present running object triggers no write. -/
def reconcileLoop (rt : String → RtView) (snapshot db : List ContainerRow) :
    List ContainerRow :=
  match snapshot with
  | [] => db
  | s :: rest =>
    match s.docker_id with
    | none =>
        reconcileLoop rt rest
          (dbUpdate db s.id (fun c => { c with status := "failed" }))
    | some did =>
      match rt did with
      | RtView.absent =>
          reconcileLoop rt rest
            (dbUpdate db s.id (fun c => { c with status := "failed", docker_id := none }))
      | RtView.present st _ =>
          if st != "running" then
            reconcileLoop rt rest
              (dbUpdate db s.id (fun c => { c with status := "stopped", exposed_port := none }))
          else
            reconcileLoop rt rest db

/-- container_service.py, ContainerService.reconcile_running_containers: one
pass selects the rows with status running and corrects each against the
runtime view rt. -/
def reconcile_running_containers (rt : String → RtView) (db : List ContainerRow) :
    List ContainerRow :=
  reconcileLoop rt (db.filter (fun r => r.status == "running")) db

/-- The net update one snapshot row s induces on the rows sharing its id
during a reconciliation pass (identity when the runtime object is present
and running, where the pass writes nothing). -/
def reconcileStepFn (rt : String → RtView) (s : ContainerRow) :
    ContainerRow → ContainerRow :=
  match s.docker_id with
  | none => fun c => { c with status := "failed" }
  | some did =>
    match rt did with
    | RtView.absent => fun c => { c with status := "failed", docker_id := none }
    | RtView.present st _ =>
        if st != "running" then
          fun c => { c with status := "stopped", exposed_port := none }
        else
          fun c => c

/-- The HTTPExceptions raised by the container service, by status code. -/
inductive HttpErr where
  | notFound (msg : String)
  | conflict (msg : String)
  | internalServerError
  deriving DecidableEq

/-- container_service.py, ContainerService.get_container: fetch the first row
with the given id, raising 404 when absent. -/
def get_container (cid : Nat) (db : List ContainerRow) : Except HttpErr ContainerRow :=
  match db.find? (fun r => r.id == cid) with
  | none => Except.error (HttpErr.notFound "Container not found")
  | some row => Except.ok row

/-- Outcome of the docker get-then-stop attempt inside stop_container: the
runtime object is gone (docker.errors.NotFound), the stop succeeded, or some
other exception was raised. -/
inductive StopRt where
  | notFound
  | stopOk
  | otherFailure
  deriving DecidableEq

/-- container_service.py, ContainerService.stop_container: not running is an
idempotent no-op; a running row without docker_id is a 409; otherwise the
runtime stop attempt decides: success persists status stopped, NotFound is
absorbed by persisting status stopped and clearing docker_id, any other
failure raises 500.  Returns the container the caller receives and the
database after the call. -/
def stop_container (rtStop : String → StopRt) (cid : Nat) (db : List ContainerRow) :
    Except HttpErr (ContainerRow × List ContainerRow) :=
  match db.find? (fun r => r.id == cid) with
  | none => Except.error (HttpErr.notFound "Container not found")
  | some container =>
    if container.status != "running" then
      Except.ok (container, db)
    else
      match container.docker_id with
      | none => Except.error (HttpErr.conflict "Container has no Docker runtime")
      | some did =>
        match rtStop did with
        | StopRt.stopOk =>
            Except.ok ({ container with status := "stopped" },
              dbUpdate db container.id (fun c => { c with status := "stopped" }))
        | StopRt.notFound =>
            Except.ok ({ container with status := "stopped", docker_id := none },
              dbUpdate db container.id
                (fun c => { c with status := "stopped", docker_id := none }))
        | StopRt.otherFailure => Except.error HttpErr.internalServerError

/-- A docker_images row as read by create_container (only the columns it
consults: primary key, name, tag, is_active). -/
structure ImageRow where
  id : Nat
  name : String
  tag : String
  is_active : Bool
  deriving DecidableEq

/-- The arguments _run_new_container hands to docker_client.containers.run:
the image reference, the internal port of the ports mapping, the requested
host port (none lets the engine pick), and the mem_limit string. -/
structure RunReq where
  image : Option String
  internal_port : Nat
  host_port : Option Nat
  mem_limit : String
  deriving DecidableEq

/-- Outcome of one docker run attempt: the engine accepted and, after
reload, reports the new container id and the host-port binding of the
internal port; or the attempt raised (any exception). -/
inductive RunOutcome where
  | accepted (dockerContainerId : String) (portBinding : Option Nat)
  | raised
  deriving DecidableEq

/-- container_service.py, ContainerService._run_new_container: issue the run
request built from the container record (mem_limit is
max(memory_limit_mb, 6) megabytes).  On success persist status running with
the runtime id and exposed port; on any exception persist status failed and
do not raise.  Returns the mutated container, the database, and the run
requests issued. -/
def _run_new_container (runtime : RunReq → RunOutcome) (container : ContainerRow)
    (host_port : Option Nat) (db : List ContainerRow) :
    ContainerRow × List ContainerRow × List RunReq :=
  let req : RunReq :=
    { image := container.image, internal_port := container.internal_port,
      host_port := host_port,
      mem_limit := toString (max container.memory_limit_mb 6) ++ "m" }
  match runtime req with
  | RunOutcome.accepted dockerContainerId exposedPort =>
      ({ container with
           status := "running", docker_id := some dockerContainerId,
           exposed_port := exposedPort },
       dbUpdate db container.id (fun c =>
         { c with
             status := "running", docker_id := some dockerContainerId,
             exposed_port := exposedPort }),
       [req])
  | RunOutcome.raised =>
      ({ container with status := "failed" },
       dbUpdate db container.id (fun c => { c with status := "failed" }),
       [req])

/-- The tail of create_container after the image reference is resolved:
insert the pending row (docker_id and exposed_port start as NULL), then run
it when auto_start is set. -/
def create_container_rest (runtime : RunReq → RunOutcome) (newId : Nat)
    (image_ref : Option String) (image_id : Option Nat)
    (cpu_limit memory_limit_mb : Int) (internal_port : Nat)
    (host_port : Option Nat) (auto_start : Bool) (db : List ContainerRow) :
    Except HttpErr (ContainerRow × List ContainerRow × List RunReq) :=
  let container : ContainerRow :=
    { id := newId, docker_image_id := image_id, image := image_ref,
      status := "pending", cpu_limit := cpu_limit,
      memory_limit_mb := memory_limit_mb, internal_port := internal_port,
      exposed_port := none, docker_id := none }
  let db1 := db ++ [container]
  if auto_start then
    let r := _run_new_container runtime container host_port db1
    Except.ok (r.1, r.2.1, r.2.2)
  else
    Except.ok (container, db1, [])

/-- container_service.py, ContainerService.create_container: when image_id is
given, fetch that docker_images row (404 when absent, no activity check) and
use name:tag as the image reference; otherwise use the raw image string.
newId is the uuid4 of the new row; the runtime answers the run attempts. -/
def create_container (images : List ImageRow) (runtime : RunReq → RunOutcome)
    (newId : Nat) (image : Option String) (image_id : Option Nat)
    (cpu_limit memory_limit_mb : Int) (internal_port : Nat)
    (host_port : Option Nat) (auto_start : Bool) (db : List ContainerRow) :
    Except HttpErr (ContainerRow × List ContainerRow × List RunReq) :=
  match image_id with
  | some iid =>
    match images.find? (fun r => r.id == iid) with
    | none => Except.error (HttpErr.notFound "Docker image not found")
    | some docker_row =>
        create_container_rest runtime newId
          (some (docker_row.name ++ ":" ++ docker_row.tag)) (some iid)
          cpu_limit memory_limit_mb internal_port host_port auto_start db
  | none =>
      create_container_rest runtime newId image none
        cpu_limit memory_limit_mb internal_port host_port auto_start db

/-- docker_runtime.py, DockerSDKRuntime.run: the keyword arguments it builds
for docker_client.containers.run, with the same mem_limit computation as
_run_new_container. -/
def dockerSDKRuntime_run_kwargs (image : String) (internal_port : Nat)
    (host_port : Option Nat) (memory_limit_mb : Int) : RunReq :=
  { image := some image, internal_port := internal_port, host_port := host_port,
    mem_limit := toString (max memory_limit_mb 6) ++ "m" }

/-- The record written back on the reactivation path of
load_or_activate_docker_image_uploaded: the existing row with the fresh
runtime image id, is_active set, and (uploaded.filename, latest). -/
def reactivatedImage (uploaded : UploadedImage) (loadedId : Nat)
    (existing : DockerImage) : DockerImage :=
  { existing with
      docker_id := loadedId, is_active := true,
      name := uploaded.filename, tag := "latest" }
-- image-side helper lemmas, appended to defs for testing

theorem activeMatch_iff (n t : String) (img : DockerImage) :
    activeMatch n t img = true ↔ img.name = n ∧ img.tag = t ∧ img.is_active = true := by
  simp [activeMatch, Bool.and_eq_true, and_assoc]

theorem activeMatch_false_of_inactive (n t : String) (img : DockerImage)
    (h : img.is_active = false) : activeMatch n t img = false := by
  simp [activeMatch, h]

theorem repoUpdate_map_id (repo : List DockerImage) (img : DockerImage) :
    (repoUpdate repo img).map DockerImage.id = repo.map DockerImage.id := by
  induction repo with
  | nil => rfl
  | cons r rest ih =>
    simp only [repoUpdate, List.map_cons, List.map_map] at ih ⊢
    refine congrArg₂ List.cons ?_ ih
    by_cases h : r.id = img.id
    · simp [h]
    · simp [h]

theorem mem_repoUpdate_of_active (repo : List DockerImage) (img r : DockerImage)
    (h : r ∈ repoUpdate repo img) (hact : r.is_active = true)
    (himg : img.is_active = false) : r ∈ repo ∧ r.id ≠ img.id := by
  simp only [repoUpdate, List.mem_map] at h
  obtain ⟨x, hx, hr⟩ := h
  by_cases hid : x.id = img.id
  · exfalso
    rw [if_pos hid] at hr
    rw [← hr] at hact
    dsimp only at hact
    rw [himg] at hact
    cases hact
  · rw [if_neg hid] at hr
    subst hr
    exact ⟨hx, hid⟩

theorem activeCount_cons (n t : String) (r : DockerImage) (rest : List DockerImage) :
    activeCount n t (r :: rest) =
      (if activeMatch n t r then 1 else 0) + activeCount n t rest := by
  simp only [activeCount, List.filter_cons]
  by_cases h : activeMatch n t r
  · simp [h, Nat.add_comm]
  · simp [h]

theorem activeCount_append (n t : String) (l1 l2 : List DockerImage) :
    activeCount n t (l1 ++ l2) = activeCount n t l1 + activeCount n t l2 := by
  simp [activeCount, List.filter_append]

theorem activeCount_repoUpdate_le_inactive (n t : String) (repo : List DockerImage)
    (img : DockerImage) (himg : img.is_active = false) :
    activeCount n t (repoUpdate repo img) ≤ activeCount n t repo := by
  induction repo with
  | nil => simp [repoUpdate, activeCount]
  | cons r rest ih =>
    have hstep : repoUpdate (r :: rest) img =
        (if r.id = img.id then
          { r with
              docker_id := img.docker_id,
              uploaded_image_id := img.uploaded_image_id,
              is_active := img.is_active }
         else r) :: repoUpdate rest img := rfl
    rw [hstep, activeCount_cons, activeCount_cons]
    by_cases hid : r.id = img.id
    · have hm : activeMatch n t
          ({ r with
              docker_id := img.docker_id,
              uploaded_image_id := img.uploaded_image_id,
              is_active := img.is_active }) = false :=
        activeMatch_false_of_inactive n t _ himg
      rw [if_pos hid]
      simp only [hm, if_false]
      exact Nat.add_le_add (Nat.zero_le _) ih
    · simp only [hid, if_false]
      exact Nat.add_le_add_left ih _

theorem activeCount_repoUpdate_le_of_cons (n t : String) (img : DockerImage)
    (hmatch : activeMatch n t img = false) :
    ∀ repo, (∀ x ∈ repo, x.id = img.id → x.name = img.name ∧ x.tag = img.tag) →
      activeCount n t (repoUpdate repo img) ≤ activeCount n t repo := by
  intro repo
  induction repo with
  | nil =>
    intro _
    simp [repoUpdate, activeCount]
  | cons r rest ih =>
    intro hcons
    have ih' := ih (fun x hx hid => hcons x (List.mem_cons_of_mem _ hx) hid)
    have hstep : repoUpdate (r :: rest) img =
        (if r.id = img.id then
          { r with
              docker_id := img.docker_id,
              uploaded_image_id := img.uploaded_image_id,
              is_active := img.is_active }
         else r) :: repoUpdate rest img := rfl
    rw [hstep, activeCount_cons, activeCount_cons]
    by_cases hid : r.id = img.id
    · obtain ⟨hname, htag⟩ := hcons r (by simp) hid
      have hm : activeMatch n t
          ({ r with
              docker_id := img.docker_id,
              uploaded_image_id := img.uploaded_image_id,
              is_active := img.is_active }) = false := by
        show (r.name == n && r.tag == t && img.is_active) = false
        rw [hname, htag]
        exact hmatch
      rw [if_pos hid]
      simp only [hm, if_false]
      exact Nat.add_le_add (Nat.zero_le _) ih'
    · simp only [hid, if_false]
      exact Nat.add_le_add_left ih' _

theorem deactivate_images_map_id (n t : String) (e : Option Nat) (snap : List DockerImage) :
    ∀ repo, ((deactivate_images n t e snap repo).1).map DockerImage.id =
      repo.map DockerImage.id := by
  induction snap with
  | nil => intro repo; rfl
  | cons img rest ih =>
    intro repo
    by_cases h : deactCond n t e img
    · simp only [deactivate_images, h, if_true]
      rw [ih, repoUpdate_map_id]
    · simp only [deactivate_images, h, if_false]
      exact ih repo

theorem deactivate_images_active_mem (n t : String) (e : Option Nat)
    (snap : List DockerImage) :
    ∀ repo r, r ∈ (deactivate_images n t e snap repo).1 → r.is_active = true →
      r ∈ repo ∧ ∀ img ∈ snap, deactCond n t e img = true → img.id ≠ r.id := by
  induction snap with
  | nil =>
    intro repo r hr _
    refine ⟨hr, ?_⟩
    intro img h
    cases h
  | cons img rest ih =>
    intro repo r hr hact
    by_cases h : deactCond n t e img
    · simp only [deactivate_images, h, if_true] at hr
      obtain ⟨hr1, hrest⟩ := ih (repoUpdate repo { img with is_active := false }) r hr hact
      obtain ⟨hmem, hne⟩ :=
        mem_repoUpdate_of_active repo { img with is_active := false } r hr1 hact rfl
      refine ⟨hmem, ?_⟩
      intro img' hmem' hcond'
      rcases List.mem_cons.mp hmem' with heq' | h'
      · subst heq'
        intro hid
        exact hne (by simp [hid])
      · exact hrest img' h' hcond'
    · simp only [deactivate_images, h, if_false] at hr
      obtain ⟨hr1, hrest⟩ := ih repo r hr hact
      refine ⟨hr1, ?_⟩
      intro img' hmem' hcond'
      rcases List.mem_cons.mp hmem' with heq' | h'
      · subst heq'
        exact absurd hcond' (by simp [h])
      · exact hrest img' h' hcond'

theorem activeCount_deactivate_le (n t n' t' : String) (e : Option Nat)
    (snap : List DockerImage) :
    ∀ repo, activeCount n' t' (deactivate_images n t e snap repo).1 ≤
      activeCount n' t' repo := by
  induction snap with
  | nil => intro repo; exact le_refl _
  | cons img rest ih =>
    intro repo
    by_cases h : deactCond n t e img
    · simp only [deactivate_images, h, if_true]
      exact le_trans (ih _) (activeCount_repoUpdate_le_inactive _ _ _ _ rfl)
    · simp only [deactivate_images, h, if_false]
      exact ih repo

theorem activeCount_deactivate_states_le (n t n' t' : String) (e : Option Nat)
    (snap : List DockerImage) :
    ∀ repo s, s ∈ (deactivate_images n t e snap repo).2 →
      activeCount n' t' s ≤ activeCount n' t' repo := by
  induction snap with
  | nil =>
    intro repo s hs
    cases hs
  | cons img rest ih =>
    intro repo s hs
    by_cases h : deactCond n t e img
    · simp only [deactivate_images, h, if_true] at hs
      rcases List.mem_cons.mp hs with heq | hs'
      · subst heq
        exact activeCount_repoUpdate_le_inactive _ _ _ _ rfl
      · exact le_trans (ih _ s hs')
          (activeCount_repoUpdate_le_inactive _ _ _ _ rfl)
    · simp only [deactivate_images, h, if_false] at hs
      exact ih repo s hs

theorem activeCount_eq_zero (n t : String) (repo : List DockerImage)
    (h : ∀ r ∈ repo, activeMatch n t r = false) : activeCount n t repo = 0 := by
  simp only [activeCount, List.length_eq_zero, List.filter_eq_nil_iff]
  intro r hr
  simp [h r hr]

theorem length_le_one_of_id_eq (l : List DockerImage) (x : Nat)
    (hn : (l.map DockerImage.id).Nodup) (hc : ∀ r ∈ l, r.id = x) : l.length ≤ 1 := by
  match l with
  | [] => simp
  | [a] => simp
  | a :: b :: rest =>
    exfalso
    have ha := hc a (by simp)
    have hb := hc b (by simp)
    simp only [List.map_cons, List.nodup_cons, List.mem_cons, List.mem_map] at hn
    exact hn.1 (Or.inl (by rw [ha, hb]))

theorem activeCount_le_one_of_active_id (n t : String) (repo : List DockerImage) (x : Nat)
    (hn : (repo.map DockerImage.id).Nodup)
    (h : ∀ r ∈ repo, activeMatch n t r = true → r.id = x) :
    activeCount n t repo ≤ 1 := by
  have hsub : (repo.filter (activeMatch n t)).Sublist repo := List.filter_sublist repo
  have hn2 : ((repo.filter (activeMatch n t)).map DockerImage.id).Nodup :=
    List.Nodup.sublist (hsub.map DockerImage.id) hn
  refine length_le_one_of_id_eq _ x hn2 ?_
  intro r hr
  have hm := List.mem_filter.mp hr
  exact h r hm.1 hm.2

theorem load_or_activate_eq_active (u : UploadedImage) (f l : Nat)
    (repo : List DockerImage) (existing : DockerImage)
    (hfind : repo.find? (fun img => img.uploaded_image_id == some u.id) = some existing)
    (hact : existing.is_active = true) :
    load_or_activate_docker_image_uploaded u f l repo =
      { repo := repo, ret := existing, loads := 0, states := [] } := by
  unfold load_or_activate_docker_image_uploaded
  rw [hfind]
  simp [hact]

theorem load_or_activate_eq_inactive (u : UploadedImage) (f l : Nat)
    (repo : List DockerImage) (existing : DockerImage)
    (hfind : repo.find? (fun img => img.uploaded_image_id == some u.id) = some existing)
    (hact : existing.is_active = false) :
    load_or_activate_docker_image_uploaded u f l repo =
      { repo := (deactivate_images u.filename "latest" (some existing.id)
          (repoUpdate repo (reactivatedImage u l existing))
          (repoUpdate repo (reactivatedImage u l existing))).1,
        ret := reactivatedImage u l existing,
        loads := 1,
        states := (repoUpdate repo (reactivatedImage u l existing)) ::
          (deactivate_images u.filename "latest" (some existing.id)
            (repoUpdate repo (reactivatedImage u l existing))
            (repoUpdate repo (reactivatedImage u l existing))).2 } := by
  unfold load_or_activate_docker_image_uploaded
  rw [hfind]
  simp [hact, reactivatedImage]

theorem load_or_activate_eq_none (u : UploadedImage) (f l : Nat)
    (repo : List DockerImage)
    (hfind : repo.find? (fun img => img.uploaded_image_id == some u.id) = none) :
    load_or_activate_docker_image_uploaded u f l repo = load_new_image u f l repo := by
  unfold load_or_activate_docker_image_uploaded
  rw [hfind]

theorem load_new_image_activeUnique (u : UploadedImage) (f l : Nat)
    (repo : List DockerImage) (hinv : ActiveUnique repo) :
    ActiveUnique (load_new_image u f l repo).repo := by
  intro n t
  have hres : (load_new_image u f l repo).repo =
      (deactivate_images u.filename "latest" none repo repo).1 ++
        [⟨f, l, some u.id, u.filename, "latest", true⟩] := rfl
  rw [hres, activeCount_append]
  by_cases hnt : n = u.filename ∧ t = "latest"
  · obtain ⟨rfl, rfl⟩ := hnt
    have hzero : activeCount u.filename "latest"
        (deactivate_images u.filename "latest" none repo repo).1 = 0 := by
      apply activeCount_eq_zero
      intro r hr
      cases hx : activeMatch u.filename "latest" r with
      | false => rfl
      | true =>
        exfalso
        have hact : r.is_active = true := ((activeMatch_iff _ _ _).mp hx).2.2
        obtain ⟨hmem, hnone⟩ :=
          deactivate_images_active_mem u.filename "latest" none repo repo r hr hact
        exact hnone r hmem (by simp [deactCond, hx]) rfl
    rw [hzero]
    simp [activeCount, List.filter, activeMatch]
  · have h1 : activeMatch n t
        (⟨f, l, some u.id, u.filename, "latest", true⟩ : DockerImage) = false := by
      cases hx : activeMatch n t
          (⟨f, l, some u.id, u.filename, "latest", true⟩ : DockerImage) with
      | false => rfl
      | true =>
        obtain ⟨hn1, hn2, _⟩ := (activeMatch_iff _ _ _).mp hx
        exact absurd ⟨hn1.symm, hn2.symm⟩ hnt
    have h0 : activeCount n t [⟨f, l, some u.id, u.filename, "latest", true⟩] = 0 :=
      activeCount_eq_zero _ _ _ (by intro r hr; simp at hr; subst hr; exact h1)
    rw [h0, Nat.add_zero]
    exact le_trans (activeCount_deactivate_le _ _ _ _ _ _ repo) (hinv n t)

theorem eq_of_mem_of_id_eq :
    ∀ repo : List DockerImage, idsNodup repo →
      ∀ x ∈ repo, ∀ y ∈ repo, x.id = y.id → x = y := by
  intro repo
  induction repo with
  | nil =>
    intro _ x hx
    cases hx
  | cons r rest ih =>
    intro hnodup
    unfold idsNodup at hnodup
    rw [List.map_cons] at hnodup
    obtain ⟨hn1, hn2⟩ := List.nodup_cons.mp hnodup
    intro x hx y hy hxy
    rcases List.mem_cons.mp hx with heqx | hx'
    · rcases List.mem_cons.mp hy with heqy | hy'
      · rw [heqx, heqy]
      · exfalso
        have hmm : y.id ∈ rest.map DockerImage.id := List.mem_map_of_mem _ hy'
        rw [← hxy, heqx] at hmm
        exact hn1 hmm
    · rcases List.mem_cons.mp hy with heqy | hy'
      · exfalso
        have hmm : x.id ∈ rest.map DockerImage.id := List.mem_map_of_mem _ hx'
        rw [hxy, heqy] at hmm
        exact hn1 hmm
      · exact ih hn2 x hx' y hy' hxy

theorem reactivate_path_activeUnique (ex1 : DockerImage) (repo : List DockerImage)
    (hinv : ActiveUnique repo) (hnodup : idsNodup repo)
    (hcons : ∀ x ∈ repo, x.id = ex1.id → x.name = ex1.name ∧ x.tag = ex1.tag) :
    ActiveUnique (deactivate_images ex1.name ex1.tag (some ex1.id)
      (repoUpdate repo ex1) (repoUpdate repo ex1)).1 := by
  intro n t
  by_cases hnt : n = ex1.name ∧ t = ex1.tag
  · obtain ⟨rfl, rfl⟩ := hnt
    apply activeCount_le_one_of_active_id _ _ _ ex1.id
    · have hids : ((deactivate_images ex1.name ex1.tag (some ex1.id)
          (repoUpdate repo ex1) (repoUpdate repo ex1)).1).map DockerImage.id =
          repo.map DockerImage.id := by
        rw [deactivate_images_map_id, repoUpdate_map_id]
      rw [hids]
      exact hnodup
    · intro r hr hmatch
      have hact : r.is_active = true := ((activeMatch_iff _ _ _).mp hmatch).2.2
      obtain ⟨hmem, hnone⟩ :=
        deactivate_images_active_mem ex1.name ex1.tag (some ex1.id)
          (repoUpdate repo ex1) (repoUpdate repo ex1) r hr hact
      by_cases hid : r.id = ex1.id
      · exact hid
      · exact absurd rfl (hnone r hmem (by simp [deactCond, hmatch, hid]))
  · have h1 : activeMatch n t ex1 = false := by
      cases hx : activeMatch n t ex1 with
      | false => rfl
      | true =>
        obtain ⟨hn1, hn2, _⟩ := (activeMatch_iff _ _ _).mp hx
        exact absurd ⟨hn1.symm, hn2.symm⟩ hnt
    exact le_trans (activeCount_deactivate_le _ _ _ _ _ _ _)
      (le_trans (activeCount_repoUpdate_le_of_cons n t ex1 h1 repo hcons) (hinv n t))

theorem reactivatedImage_name (u : UploadedImage) (l : Nat) (existing : DockerImage) :
    (reactivatedImage u l existing).name = u.filename := rfl

theorem load_or_activate_activeUnique (u : UploadedImage) (f l : Nat)
    (repo : List DockerImage) (hinv : ActiveUnique repo) (hnodup : idsNodup repo)
    (hcons : ∀ r ∈ repo, r.uploaded_image_id = some u.id →
      r.name = u.filename ∧ r.tag = "latest") :
    ActiveUnique (load_or_activate_docker_image_uploaded u f l repo).repo := by
  cases hfind : repo.find? (fun img => img.uploaded_image_id == some u.id) with
  | none =>
    rw [load_or_activate_eq_none u f l repo hfind]
    exact load_new_image_activeUnique u f l repo hinv
  | some existing =>
    cases hact : existing.is_active with
    | true =>
      rw [load_or_activate_eq_active u f l repo existing hfind hact]
      exact hinv
    | false =>
      rw [load_or_activate_eq_inactive u f l repo existing hfind hact]
      have hmemex : existing ∈ repo := List.mem_of_find?_eq_some hfind
      have hrefex : existing.uploaded_image_id = some u.id := by
        simpa using List.find?_some hfind
      obtain ⟨hnm, htg⟩ := hcons existing hmemex hrefex
      have hcons2 : ∀ x ∈ repo, x.id = (reactivatedImage u l existing).id →
          x.name = (reactivatedImage u l existing).name ∧
          x.tag = (reactivatedImage u l existing).tag := by
        intro x hx hid
        have hxe : x = existing :=
          eq_of_mem_of_id_eq repo hnodup x hx existing hmemex hid
        rw [hxe]
        exact ⟨hnm, htg⟩
      exact reactivate_path_activeUnique (reactivatedImage u l existing) repo
        hinv hnodup hcons2

theorem load_new_image_idsNodup (u : UploadedImage) (f l : Nat)
    (repo : List DockerImage) (hnodup : idsNodup repo)
    (hfresh : f ∉ repo.map DockerImage.id) :
    idsNodup (load_new_image u f l repo).repo := by
  have hres : (load_new_image u f l repo).repo =
      (deactivate_images u.filename "latest" none repo repo).1 ++
        [⟨f, l, some u.id, u.filename, "latest", true⟩] := rfl
  unfold idsNodup at hnodup ⊢
  rw [hres, List.map_append, deactivate_images_map_id]
  simp [List.nodup_append, hnodup, hfresh]

theorem load_or_activate_idsNodup (u : UploadedImage) (f l : Nat)
    (repo : List DockerImage) (hnodup : idsNodup repo)
    (hfresh : f ∉ repo.map DockerImage.id) :
    idsNodup (load_or_activate_docker_image_uploaded u f l repo).repo := by
  cases hfind : repo.find? (fun img => img.uploaded_image_id == some u.id) with
  | none =>
    rw [load_or_activate_eq_none u f l repo hfind]
    exact load_new_image_idsNodup u f l repo hnodup hfresh
  | some existing =>
    cases hact : existing.is_active with
    | true =>
      rw [load_or_activate_eq_active u f l repo existing hfind hact]
      exact hnodup
    | false =>
      rw [load_or_activate_eq_inactive u f l repo existing hfind hact]
      unfold idsNodup at hnodup ⊢
      rw [deactivate_images_map_id, repoUpdate_map_id]
      exact hnodup

theorem applyImageOp_inv (op : ImageOp) (repo : List DockerImage)
    (hinv : ActiveUnique repo) (hnodup : idsNodup repo)
    (hfresh : opFreshId op ∉ repo.map DockerImage.id)
    (hcons : ∀ r ∈ repo, r.uploaded_image_id = some (opUploaded op).id →
      r.name = (opUploaded op).filename ∧ r.tag = "latest") :
    ActiveUnique (applyImageOp op repo).repo ∧ idsNodup (applyImageOp op repo).repo := by
  cases op with
  | loadNew u f l =>
    exact ⟨load_new_image_activeUnique u f l repo hinv,
      load_new_image_idsNodup u f l repo hnodup hfresh⟩
  | loadOrActivate u f l =>
    exact ⟨load_or_activate_activeUnique u f l repo hinv hnodup hcons,
      load_or_activate_idsNodup u f l repo hnodup hfresh⟩

theorem consSeq_head (op : ImageOp) (rest : List ImageOp) (repo : List DockerImage)
    (h : consSeq (op :: rest) repo = true) :
    (∀ r ∈ repo, r.uploaded_image_id = some (opUploaded op).id →
      r.name = (opUploaded op).filename ∧ r.tag = "latest") ∧
    consSeq rest (applyImageOp op repo).repo = true := by
  simp only [consSeq, Bool.and_eq_true, List.all_eq_true] at h
  obtain ⟨h1, h2⟩ := h
  refine ⟨?_, h2⟩
  intro r hr href
  have h3 := h1 r hr
  simp only [href, bne_self_eq_false, Bool.false_or, Bool.and_eq_true,
    beq_iff_eq] at h3
  exact h3

theorem runImageOps_inv (ops : List ImageOp) :
    ∀ repo, ActiveUnique repo → idsNodup repo → freshSeq ops repo = true →
      consSeq ops repo = true →
      ActiveUnique (runImageOps ops repo) ∧ idsNodup (runImageOps ops repo) := by
  induction ops with
  | nil =>
    intro repo hinv hnodup _ _
    exact ⟨hinv, hnodup⟩
  | cons op rest ih =>
    intro repo hinv hnodup hfresh hcons
    have hsplit := hfresh
    simp only [freshSeq, Bool.and_eq_true, Bool.not_eq_true'] at hsplit
    obtain ⟨hfi, hrest⟩ := hsplit
    have hfi' : opFreshId op ∉ repo.map DockerImage.id := by
      intro hmem
      rw [List.elem_iff.mpr hmem] at hfi
      cases hfi
    obtain ⟨hcons1, hcons2⟩ := consSeq_head op rest repo hcons
    obtain ⟨hinv1, hnodup1⟩ := applyImageOp_inv op repo hinv hnodup hfi' hcons1
    exact ih (applyImageOp op repo).repo hinv1 hnodup1 hrest hcons2

theorem find?_eq_of_unique_ref (u : UploadedImage) (repo : List DockerImage)
    (img : DockerImage) (hmem : img ∈ repo) (href : img.uploaded_image_id = some u.id)
    (huniq : ∀ r ∈ repo, r.uploaded_image_id = some u.id → r = img) :
    repo.find? (fun r => r.uploaded_image_id == some u.id) = some img := by
  induction repo with
  | nil => cases hmem
  | cons r rest ih =>
    by_cases hr : r.uploaded_image_id = some u.id
    · have heq : r = img := huniq r (by simp) hr
      subst heq
      exact List.find?_cons_of_pos _ (by simp [hr])
    · rw [List.find?_cons_of_neg _ (by simp [hr])]
      apply ih
      · rcases List.mem_cons.mp hmem with heq | h
        · exact absurd (heq ▸ href) hr
        · exact h
      · intro x hx hxx
        exact huniq x (List.mem_cons_of_mem _ hx) hxx

/-- Claim C1: for every (name, tag) pair, after any sequence of completed
activation operations (load_new_image and
load_or_activate_docker_image_uploaded, each run to completion), at most one
DockerImage record in the repository has is_active = true.  The starting
repository satisfies the invariant, ids are primary-key unique, the uuid4
values handed to the operations are fresh, and name consistency holds along
the run (rows referencing an upload carry its filename and the tag latest —
true in the program because repo.create persists these values once,
SQLDockerImageRepository.update never writes name or tag, and an upload
keeps the filename register_upload stored for it). -/
theorem c1_at_most_one_active (ops : List ImageOp) (repo : List DockerImage)
    (hinv : ActiveUnique repo) (hnodup : idsNodup repo)
    (hfresh : freshSeq ops repo = true) (hcons : consSeq ops repo = true) :
    ActiveUnique (runImageOps ops repo) :=
  (runImageOps_inv ops repo hinv hnodup hfresh hcons).1

theorem c1_witness :
    ActiveUnique (runImageOps
      [ImageOp.loadNew ⟨100, "web", "p1"⟩ 1 10,
       ImageOp.loadOrActivate ⟨200, "web", "p2"⟩ 2 20,
       ImageOp.loadOrActivate ⟨100, "web", "p1"⟩ 3 30] []) :=
  c1_at_most_one_active _ _ (fun n t => by simp [activeCount])
    (by simp [idsNodup]) (by decide) (by decide)

/-- Claim C4: a load-or-activate call on an UploadedImage already referenced
by an active DockerImage record performs zero runtime load_image calls and
returns that record unchanged, with no repository write.  The huniq
hypothesis is the UNIQUE constraint on docker_images.uploaded_image_id
(app/models/db.py): at most one record references a given upload. -/
theorem c4_activation_idempotent (u : UploadedImage) (f l : Nat)
    (repo : List DockerImage) (img : DockerImage)
    (hmem : img ∈ repo) (href : img.uploaded_image_id = some u.id)
    (hact : img.is_active = true)
    (huniq : ∀ r ∈ repo, r.uploaded_image_id = some u.id → r = img) :
    load_or_activate_docker_image_uploaded u f l repo =
      { repo := repo, ret := img, loads := 0, states := [] } :=
  load_or_activate_eq_active u f l repo img
    (find?_eq_of_unique_ref u repo img hmem href huniq) hact

theorem c4_witness :
    load_or_activate_docker_image_uploaded ⟨100, "web", "p1"⟩ 5 50
      [⟨1, 10, some 100, "web", "latest", true⟩] =
      { repo := [⟨1, 10, some 100, "web", "latest", true⟩],
        ret := ⟨1, 10, some 100, "web", "latest", true⟩,
        loads := 0, states := [] } :=
  c4_activation_idempotent ⟨100, "web", "p1"⟩ 5 50 _ _ (by simp) rfl rfl
    (by intro r hr _; simpa using hr)

/-- Claim C5 counterexample: in the reactivation path of
load_or_activate_docker_image_uploaded the record is made active before the
siblings are deactivated, so a repository state reached during the sequence
of writes holds two active records for (web, latest).  The state is reached
from the empty repository by three completed operations: load web for upload
100, load web for upload 200 (deactivating the first record), then
load-or-activate upload 100 again. -/
theorem c5_counterexample :
    ∃ s ∈ (load_or_activate_docker_image_uploaded ⟨100, "web", "p1"⟩ 3 30
        (runImageOps
          [ImageOp.loadNew ⟨100, "web", "p1"⟩ 1 10,
           ImageOp.loadOrActivate ⟨200, "web", "p2"⟩ 2 20] [])).states,
      activeCount "web" "latest" s = 2 := by decide

/-- Claim C5 (amended): in a load_new_image activation (and therefore in the
load_or_activate path that delegates to it when no record references the
upload) every previously active record sharing (name, tag) is flagged
inactive strictly before the newly activated record is created, so no
repository state reached during the sequence of writes has two active
records for any (name, tag); in the reactivation path of
load_or_activate_docker_image_uploaded the record becomes active before the
siblings are deactivated, so an intermediate state may hold two active
records for that (name, tag). -/
theorem c5_amended_load_new_image_ordering (u : UploadedImage) (f l : Nat)
    (repo : List DockerImage) (hinv : ActiveUnique repo) :
    ∀ s ∈ (load_new_image u f l repo).states, ActiveUnique s := by
  intro s hs
  have hstates : (load_new_image u f l repo).states =
      (deactivate_images u.filename "latest" none repo repo).2 ++
        [(deactivate_images u.filename "latest" none repo repo).1 ++
          [⟨f, l, some u.id, u.filename, "latest", true⟩]] := rfl
  rw [hstates] at hs
  rcases List.mem_append.mp hs with h1 | h2
  · intro n t
    exact le_trans (activeCount_deactivate_states_le _ _ _ _ _ _ _ s h1) (hinv n t)
  · simp at h2
    subst h2
    exact load_new_image_activeUnique u f l repo hinv

theorem c5_amended_witness :
    ActiveUnique ((load_new_image ⟨100, "web", "p1"⟩ 7 70
      [⟨9, 90, some 300, "web", "latest", true⟩]).states.headI) :=
  c5_amended_load_new_image_ordering ⟨100, "web", "p1"⟩ 7 70
    [⟨9, 90, some 300, "web", "latest", true⟩]
    (by
      intro n t
      unfold activeCount
      exact le_trans (List.length_filter_le _ _) (Nat.le_refl 1))
    ((load_new_image ⟨100, "web", "p1"⟩ 7 70
      [⟨9, 90, some 300, "web", "latest", true⟩]).states.headI)
    (by decide)

theorem reconcileLoop_cons (rt : String → RtView) (s : ContainerRow)
    (rest db : List ContainerRow) :
    reconcileLoop rt (s :: rest) db =
      match s.docker_id with
      | none =>
          reconcileLoop rt rest
            (dbUpdate db s.id (fun c => { c with status := "failed" }))
      | some did =>
        match rt did with
        | RtView.absent =>
            reconcileLoop rt rest
              (dbUpdate db s.id (fun c => { c with status := "failed", docker_id := none }))
        | RtView.present st _ =>
            if st != "running" then
              reconcileLoop rt rest
                (dbUpdate db s.id (fun c => { c with status := "stopped", exposed_port := none }))
            else
              reconcileLoop rt rest db := rfl

theorem reconcileLoop_cons_no_docker_id (rt : String → RtView) (s : ContainerRow)
    (rest db : List ContainerRow) (h : s.docker_id = none) :
    reconcileLoop rt (s :: rest) db =
      reconcileLoop rt rest
        (dbUpdate db s.id (fun c => { c with status := "failed" })) := by
  rw [reconcileLoop_cons, h]

theorem reconcileLoop_cons_absent (rt : String → RtView) (s : ContainerRow)
    (rest db : List ContainerRow) (did : String)
    (h : s.docker_id = some did) (ha : rt did = RtView.absent) :
    reconcileLoop rt (s :: rest) db =
      reconcileLoop rt rest
        (dbUpdate db s.id (fun c => { c with status := "failed", docker_id := none })) := by
  rw [reconcileLoop_cons, h]
  dsimp only
  rw [ha]

theorem reconcileLoop_cons_not_running (rt : String → RtView) (s : ContainerRow)
    (rest db : List ContainerRow) (did st : String) (p : Option Nat)
    (h : s.docker_id = some did) (ha : rt did = RtView.present st p)
    (hs : st ≠ "running") :
    reconcileLoop rt (s :: rest) db =
      reconcileLoop rt rest
        (dbUpdate db s.id (fun c => { c with status := "stopped", exposed_port := none })) := by
  rw [reconcileLoop_cons, h]
  dsimp only
  rw [ha]
  dsimp only
  rw [if_pos (by simp [hs] : (st != "running") = true)]

theorem reconcileLoop_cons_running (rt : String → RtView) (s : ContainerRow)
    (rest db : List ContainerRow) (did : String) (p : Option Nat)
    (h : s.docker_id = some did) (ha : rt did = RtView.present "running" p) :
    reconcileLoop rt (s :: rest) db = reconcileLoop rt rest db := by
  rw [reconcileLoop_cons, h]
  dsimp only
  rw [ha]
  dsimp only
  rw [if_neg (by simp : ¬(("running" != "running") = true))]

theorem find?_dbUpdate_self (db : List ContainerRow) (cid : Nat)
    (f : ContainerRow → ContainerRow) (hf : ∀ c, (f c).id = c.id) :
    (dbUpdate db cid f).find? (fun r => r.id == cid) =
      (db.find? (fun r => r.id == cid)).map f := by
  induction db with
  | nil => rfl
  | cons r rest ih =>
    by_cases h : r.id = cid
    · have h1 : dbUpdate (r :: rest) cid f = f r :: dbUpdate rest cid f := by
        simp [dbUpdate, h]
      rw [h1, List.find?_cons_of_pos _ (by simp [hf, h]),
        List.find?_cons_of_pos _ (by simp [h])]
      rfl
    · have h1 : dbUpdate (r :: rest) cid f = r :: dbUpdate rest cid f := by
        simp [dbUpdate, h]
      rw [h1, List.find?_cons_of_neg _ (by simp [h]),
        List.find?_cons_of_neg _ (by simp [h])]
      exact ih

theorem find?_dbUpdate_ne (db : List ContainerRow) (cid x : Nat)
    (f : ContainerRow → ContainerRow) (hf : ∀ c, (f c).id = c.id) (hne : cid ≠ x) :
    (dbUpdate db cid f).find? (fun r => r.id == x) =
      db.find? (fun r => r.id == x) := by
  induction db with
  | nil => rfl
  | cons r rest ih =>
    by_cases h : r.id = cid
    · have h1 : dbUpdate (r :: rest) cid f = f r :: dbUpdate rest cid f := by
        simp [dbUpdate, h]
      rw [h1, List.find?_cons_of_neg _ (by simp [hf, h, hne]),
        List.find?_cons_of_neg _ (by simp [h, hne])]
      exact ih
    · have h1 : dbUpdate (r :: rest) cid f = r :: dbUpdate rest cid f := by
        simp [dbUpdate, h]
      rw [h1]
      by_cases hx : r.id = x
      · rw [List.find?_cons_of_pos _ (by simp [hx]),
          List.find?_cons_of_pos _ (by simp [hx])]
      · rw [List.find?_cons_of_neg _ (by simp [hx]),
          List.find?_cons_of_neg _ (by simp [hx])]
        exact ih

theorem reconcileStepFn_no_docker_id (rt : String → RtView) (s : ContainerRow)
    (h : s.docker_id = none) :
    reconcileStepFn rt s = fun c => { c with status := "failed" } := by
  unfold reconcileStepFn
  rw [h]

theorem reconcileStepFn_absent (rt : String → RtView) (s : ContainerRow) (did : String)
    (h : s.docker_id = some did) (ha : rt did = RtView.absent) :
    reconcileStepFn rt s = fun c => { c with status := "failed", docker_id := none } := by
  unfold reconcileStepFn
  rw [h]
  dsimp only
  rw [ha]

theorem reconcileStepFn_not_running (rt : String → RtView) (s : ContainerRow)
    (did st : String) (p : Option Nat)
    (h : s.docker_id = some did) (ha : rt did = RtView.present st p) (hs : st ≠ "running") :
    reconcileStepFn rt s = fun c => { c with status := "stopped", exposed_port := none } := by
  unfold reconcileStepFn
  rw [h]
  dsimp only
  rw [ha]
  dsimp only
  rw [if_pos (by simp [hs] : (st != "running") = true)]

theorem reconcileStepFn_running (rt : String → RtView) (s : ContainerRow)
    (did : String) (p : Option Nat)
    (h : s.docker_id = some did) (ha : rt did = RtView.present "running" p) :
    reconcileStepFn rt s = fun c => c := by
  unfold reconcileStepFn
  rw [h]
  dsimp only
  rw [ha]
  dsimp only
  rw [if_neg (by simp : ¬(("running" != "running") = true))]

theorem reconcileLoop_find?_skip (rt : String → RtView) (x : Nat) :
    ∀ snap db, (∀ s ∈ snap, s.id ≠ x) →
      (reconcileLoop rt snap db).find? (fun r => r.id == x) =
        db.find? (fun r => r.id == x) := by
  intro snap
  induction snap with
  | nil =>
    intro db _
    rfl
  | cons s rest ih =>
    intro db hx
    have hsx : s.id ≠ x := hx s (by simp)
    have hx' : ∀ s' ∈ rest, s'.id ≠ x := fun s' h => hx s' (List.mem_cons_of_mem _ h)
    cases hd : s.docker_id with
    | none =>
      rw [reconcileLoop_cons_no_docker_id rt s rest db hd, ih _ hx',
        find?_dbUpdate_ne db s.id x (fun c => { c with status := "failed" })
          (fun c => rfl) hsx]
    | some did =>
      cases ha : rt did with
      | absent =>
        rw [reconcileLoop_cons_absent rt s rest db did hd ha, ih _ hx',
          find?_dbUpdate_ne db s.id x
            (fun c => { c with status := "failed", docker_id := none })
            (fun c => rfl) hsx]
      | present st p =>
        by_cases hst : st = "running"
        · subst hst
          rw [reconcileLoop_cons_running rt s rest db did p hd ha, ih _ hx']
        · rw [reconcileLoop_cons_not_running rt s rest db did st p hd ha hst, ih _ hx',
            find?_dbUpdate_ne db s.id x
              (fun c => { c with status := "stopped", exposed_port := none })
              (fun c => rfl) hsx]

theorem reconcileLoop_find?_hit (rt : String → RtView) (x : Nat) :
    ∀ snap (s : ContainerRow) db, ((snap.map ContainerRow.id).Nodup) → s ∈ snap →
      s.id = x →
      (reconcileLoop rt snap db).find? (fun r => r.id == x) =
        (db.find? (fun r => r.id == x)).map (reconcileStepFn rt s) := by
  intro snap
  induction snap with
  | nil =>
    intro s db _ hmem _
    cases hmem
  | cons hd rest ih =>
    intro s db hnodup hmem hx
    rw [List.map_cons] at hnodup
    obtain ⟨hn1, hn2⟩ := List.nodup_cons.mp hnodup
    rcases List.mem_cons.mp hmem with heq | hmem'
    · subst heq
      subst hx
      have hrest : ∀ s' ∈ rest, s'.id ≠ s.id := by
        intro s' hmem'' hc
        apply hn1
        have hmm := List.mem_map_of_mem ContainerRow.id hmem''
        rw [hc] at hmm
        exact hmm
      cases hdid : s.docker_id with
      | none =>
        rw [reconcileLoop_cons_no_docker_id rt s rest db hdid,
          reconcileLoop_find?_skip rt s.id rest _ hrest,
          find?_dbUpdate_self db s.id (fun c => { c with status := "failed" })
            (fun c => rfl),
          reconcileStepFn_no_docker_id rt s hdid]
      | some did =>
        cases ha : rt did with
        | absent =>
          rw [reconcileLoop_cons_absent rt s rest db did hdid ha,
            reconcileLoop_find?_skip rt s.id rest _ hrest,
            find?_dbUpdate_self db s.id
              (fun c => { c with status := "failed", docker_id := none })
              (fun c => rfl),
            reconcileStepFn_absent rt s did hdid ha]
        | present st p =>
          by_cases hst : st = "running"
          · subst hst
            rw [reconcileLoop_cons_running rt s rest db did p hdid ha,
              reconcileLoop_find?_skip rt s.id rest _ hrest,
              reconcileStepFn_running rt s did p hdid ha]
            cases db.find? (fun r => r.id == s.id) <;> rfl
          · rw [reconcileLoop_cons_not_running rt s rest db did st p hdid ha hst,
              reconcileLoop_find?_skip rt s.id rest _ hrest,
              find?_dbUpdate_self db s.id
                (fun c => { c with status := "stopped", exposed_port := none })
                (fun c => rfl),
              reconcileStepFn_not_running rt s did st p hdid ha hst]
    · have hhd : hd.id ≠ x := by
        intro hc
        apply hn1
        have hmm := List.mem_map_of_mem ContainerRow.id hmem'
        rw [hx] at hmm
        rw [hc]
        exact hmm
      cases hdid : hd.docker_id with
      | none =>
        rw [reconcileLoop_cons_no_docker_id rt hd rest db hdid,
          ih s _ hn2 hmem' hx,
          find?_dbUpdate_ne db hd.id x (fun c => { c with status := "failed" })
            (fun c => rfl) hhd]
      | some did =>
        cases ha : rt did with
        | absent =>
          rw [reconcileLoop_cons_absent rt hd rest db did hdid ha,
            ih s _ hn2 hmem' hx,
            find?_dbUpdate_ne db hd.id x
              (fun c => { c with status := "failed", docker_id := none })
              (fun c => rfl) hhd]
        | present st p =>
          by_cases hst : st = "running"
          · subst hst
            rw [reconcileLoop_cons_running rt hd rest db did p hdid ha,
              ih s _ hn2 hmem' hx]
          · rw [reconcileLoop_cons_not_running rt hd rest db did st p hdid ha hst,
              ih s _ hn2 hmem' hx,
              find?_dbUpdate_ne db hd.id x
                (fun c => { c with status := "stopped", exposed_port := none })
                (fun c => rfl) hhd]

theorem dbUpdate_length (db : List ContainerRow) (cid : Nat)
    (f : ContainerRow → ContainerRow) : (dbUpdate db cid f).length = db.length := by
  simp [dbUpdate]

theorem find?_append_of_none (l1 l2 : List ContainerRow) (p : ContainerRow → Bool)
    (h : ∀ x ∈ l1, p x = false) : (l1 ++ l2).find? p = l2.find? p := by
  induction l1 with
  | nil => rfl
  | cons a rest ih =>
    rw [List.cons_append, List.find?_cons_of_neg _ (by simp [h a (by simp)])]
    exact ih (fun x hx => h x (List.mem_cons_of_mem _ hx))

theorem create_container_ok_elim (images : List ImageRow)
    (runtime : RunReq → RunOutcome) (newId : Nat) (image : Option String)
    (image_id : Option Nat) (cpu mem : Int) (iport : Nat) (hport : Option Nat)
    (astart : Bool) (db : List ContainerRow) (c : ContainerRow)
    (db' : List ContainerRow) (reqs : List RunReq)
    (hok : create_container images runtime newId image image_id cpu mem iport
      hport astart db = Except.ok (c, db', reqs)) :
    ∃ image_ref, create_container_rest runtime newId image_ref image_id cpu mem
      iport hport astart db = Except.ok (c, db', reqs) := by
  cases image_id with
  | none =>
    unfold create_container at hok
    exact ⟨image, hok⟩
  | some iid =>
    unfold create_container at hok
    dsimp only at hok
    cases hfind : images.find? (fun r => r.id == iid) with
    | none =>
      rw [hfind] at hok
      cases hok
    | some row =>
      rw [hfind] at hok
      exact ⟨some (row.name ++ ":" ++ row.tag), hok⟩

theorem create_container_rest_false_elim (runtime : RunReq → RunOutcome)
    (newId : Nat) (image_ref : Option String) (image_id : Option Nat)
    (cpu mem : Int) (iport : Nat) (hport : Option Nat) (db : List ContainerRow)
    (c : ContainerRow) (db' : List ContainerRow) (reqs : List RunReq)
    (hok : create_container_rest runtime newId image_ref image_id cpu mem iport
      hport false db = Except.ok (c, db', reqs)) :
    c = { id := newId, docker_image_id := image_id, image := image_ref,
          status := "pending", cpu_limit := cpu, memory_limit_mb := mem,
          internal_port := iport, exposed_port := none, docker_id := none } ∧
    db' = db ++ [c] ∧ reqs = [] := by
  unfold create_container_rest at hok
  rw [if_neg (by simp : ¬(false = true))] at hok
  simp only [Except.ok.injEq, Prod.mk.injEq] at hok
  obtain ⟨hc, hdb, hreqs⟩ := hok
  subst hc
  exact ⟨rfl, hdb.symm, hreqs.symm⟩

theorem create_container_rest_true_elim (runtime : RunReq → RunOutcome)
    (newId : Nat) (image_ref : Option String) (image_id : Option Nat)
    (cpu mem : Int) (iport : Nat) (hport : Option Nat) (db : List ContainerRow)
    (c : ContainerRow) (db' : List ContainerRow) (reqs : List RunReq)
    (hok : create_container_rest runtime newId image_ref image_id cpu mem iport
      hport true db = Except.ok (c, db', reqs)) :
    reqs = [{ image := image_ref, internal_port := iport, host_port := hport,
              mem_limit := toString (max mem 6) ++ "m" }] ∧
    ((∃ did p,
        runtime { image := image_ref, internal_port := iport, host_port := hport,
                  mem_limit := toString (max mem 6) ++ "m" } =
          RunOutcome.accepted did p ∧
        c = { id := newId, docker_image_id := image_id, image := image_ref,
              status := "running", cpu_limit := cpu, memory_limit_mb := mem,
              internal_port := iport, exposed_port := p, docker_id := some did } ∧
        db' = dbUpdate (db ++
            [{ id := newId, docker_image_id := image_id, image := image_ref,
               status := "pending", cpu_limit := cpu, memory_limit_mb := mem,
               internal_port := iport, exposed_port := none, docker_id := none }])
          newId (fun x =>
            { x with status := "running", docker_id := some did, exposed_port := p })) ∨
      (runtime { image := image_ref, internal_port := iport, host_port := hport,
                 mem_limit := toString (max mem 6) ++ "m" } =
          RunOutcome.raised ∧
        c = { id := newId, docker_image_id := image_id, image := image_ref,
              status := "failed", cpu_limit := cpu, memory_limit_mb := mem,
              internal_port := iport, exposed_port := none, docker_id := none } ∧
        db' = dbUpdate (db ++
            [{ id := newId, docker_image_id := image_id, image := image_ref,
               status := "pending", cpu_limit := cpu, memory_limit_mb := mem,
               internal_port := iport, exposed_port := none, docker_id := none }])
          newId (fun x => { x with status := "failed" }))) := by
  unfold create_container_rest at hok
  rw [if_pos rfl] at hok
  unfold _run_new_container at hok
  dsimp only at hok
  cases hr : runtime { image := image_ref, internal_port := iport, host_port := hport, mem_limit := toString (max mem 6) ++ "m" } with
  | accepted did p =>
    rw [hr] at hok
    dsimp only at hok
    simp only [Except.ok.injEq, Prod.mk.injEq] at hok
    obtain ⟨hc, hdb, hreqs⟩ := hok
    exact ⟨hreqs.symm, Or.inl ⟨did, p, rfl, hc.symm, hdb.symm⟩⟩
  | raised =>
    rw [hr] at hok
    dsimp only at hok
    simp only [Except.ok.injEq, Prod.mk.injEq] at hok
    obtain ⟨hc, hdb, hreqs⟩ := hok
    exact ⟨hreqs.symm, Or.inr ⟨rfl, hc.symm, hdb.symm⟩⟩

theorem get_container_some (cid : Nat) (db : List ContainerRow) (row : ContainerRow)
    (h : db.find? (fun r => r.id == cid) = some row) :
    get_container cid db = Except.ok row := by
  unfold get_container
  rw [h]

/-- Claim C2 counterexample: a running container whose runtime object is
absent is reconciled to status failed with the runtime id cleared, but its
exposed port is left at 8080 instead of being set to null as the claim
states. -/
theorem c2_counterexample :
    reconcile_running_containers (fun _ => RtView.absent)
      [{ id := 1, docker_image_id := none, image := some "nginx:latest",
         status := "running", cpu_limit := 1, memory_limit_mb := 64,
         internal_port := 80, exposed_port := some 8080,
         docker_id := some "abc123" }] =
      [{ id := 1, docker_image_id := none, image := some "nginx:latest",
         status := "failed", cpu_limit := 1, memory_limit_mb := 64,
         internal_port := 80, exposed_port := some 8080,
         docker_id := none }] := by decide

/-- Claim C2 (amended): for every persisted container with status running and
a recorded runtime id that the runtime reports absent, one reconciliation
pass sets the status of that container to failed and its runtime id to null; the
exposed port is left at its previous value (this branch does not clear
it). -/
theorem c2_reconcile_absent_marks_failed (rt : String → RtView)
    (db : List ContainerRow) (cid : Nat) (d : String) (row : ContainerRow)
    (hnodup : (db.map ContainerRow.id).Nodup)
    (hfind : db.find? (fun r => r.id == cid) = some row)
    (hrun : row.status = "running") (hdock : row.docker_id = some d)
    (habs : rt d = RtView.absent) :
    (reconcile_running_containers rt db).find? (fun r => r.id == cid) =
      some { row with status := "failed", docker_id := none } := by
  have hrowid : row.id = cid := by simpa using List.find?_some hfind
  have hmem : row ∈ db := List.mem_of_find?_eq_some hfind
  have hsnap : row ∈ db.filter (fun r => r.status == "running") :=
    List.mem_filter.mpr ⟨hmem, by simp [hrun]⟩
  have hsnapnodup :
      ((db.filter (fun r => r.status == "running")).map ContainerRow.id).Nodup :=
    List.Nodup.sublist ((List.filter_sublist db).map ContainerRow.id) hnodup
  unfold reconcile_running_containers
  rw [reconcileLoop_find?_hit rt cid _ row db hsnapnodup hsnap hrowid, hfind,
    reconcileStepFn_absent rt row d hdock habs]
  rfl

theorem c2_witness :
    (reconcile_running_containers (fun _ => RtView.absent)
        [{ id := 1, docker_image_id := none, image := some "nginx:latest",
           status := "running", cpu_limit := 1, memory_limit_mb := 64,
           internal_port := 80, exposed_port := some 8080,
           docker_id := some "abc123" }]).find? (fun r => r.id == 1) =
      some { id := 1, docker_image_id := none, image := some "nginx:latest",
             status := "failed", cpu_limit := 1, memory_limit_mb := 64,
             internal_port := 80, exposed_port := some 8080,
             docker_id := none } :=
  c2_reconcile_absent_marks_failed (fun _ => RtView.absent)
    [{ id := 1, docker_image_id := none, image := some "nginx:latest",
       status := "running", cpu_limit := 1, memory_limit_mb := 64,
       internal_port := 80, exposed_port := some 8080,
       docker_id := some "abc123" }] 1 "abc123"
    { id := 1, docker_image_id := none, image := some "nginx:latest",
      status := "running", cpu_limit := 1, memory_limit_mb := 64,
      internal_port := 80, exposed_port := some 8080,
      docker_id := some "abc123" }
    (by simp) rfl rfl rfl rfl

/-- Claim C7 counterexample: the runtime reports the container running with
current host-port binding 9999, yet the reconciliation pass leaves the
persisted exposed port at 8080 — no refresh of the port happens. -/
theorem c7_counterexample :
    reconcile_running_containers (fun _ => RtView.present "running" (some 9999))
      [{ id := 1, docker_image_id := none, image := some "nginx:latest",
         status := "running", cpu_limit := 1, memory_limit_mb := 64,
         internal_port := 80, exposed_port := some 8080,
         docker_id := some "abc123" }] =
      [{ id := 1, docker_image_id := none, image := some "nginx:latest",
         status := "running", cpu_limit := 1, memory_limit_mb := 64,
         internal_port := 80, exposed_port := some 8080,
         docker_id := some "abc123" }] := by decide

/-- Claim C7 (amended): for every persisted container with status running
whose runtime object exists and is reported running, the reconciliation pass
leaves the persisted record entirely unchanged — in particular the exposed
port is not refreshed from the runtime port binding. -/
theorem c7_reconcile_running_no_refresh (rt : String → RtView)
    (db : List ContainerRow) (cid : Nat) (d : String) (p : Option Nat)
    (row : ContainerRow)
    (hnodup : (db.map ContainerRow.id).Nodup)
    (hfind : db.find? (fun r => r.id == cid) = some row)
    (hrun : row.status = "running") (hdock : row.docker_id = some d)
    (hpres : rt d = RtView.present "running" p) :
    (reconcile_running_containers rt db).find? (fun r => r.id == cid) =
      some row := by
  have hrowid : row.id = cid := by simpa using List.find?_some hfind
  have hmem : row ∈ db := List.mem_of_find?_eq_some hfind
  have hsnap : row ∈ db.filter (fun r => r.status == "running") :=
    List.mem_filter.mpr ⟨hmem, by simp [hrun]⟩
  have hsnapnodup :
      ((db.filter (fun r => r.status == "running")).map ContainerRow.id).Nodup :=
    List.Nodup.sublist ((List.filter_sublist db).map ContainerRow.id) hnodup
  unfold reconcile_running_containers
  rw [reconcileLoop_find?_hit rt cid _ row db hsnapnodup hsnap hrowid, hfind,
    reconcileStepFn_running rt row d p hdock hpres]
  rfl

theorem c7_witness :
    (reconcile_running_containers (fun _ => RtView.present "running" (some 9999))
        [{ id := 1, docker_image_id := none, image := some "nginx:latest",
           status := "running", cpu_limit := 1, memory_limit_mb := 64,
           internal_port := 80, exposed_port := some 8080,
           docker_id := some "abc123" }]).find? (fun r => r.id == 1) =
      some { id := 1, docker_image_id := none, image := some "nginx:latest",
             status := "running", cpu_limit := 1, memory_limit_mb := 64,
             internal_port := 80, exposed_port := some 8080,
             docker_id := some "abc123" } :=
  c7_reconcile_running_no_refresh (fun _ => RtView.present "running" (some 9999))
    [{ id := 1, docker_image_id := none, image := some "nginx:latest",
       status := "running", cpu_limit := 1, memory_limit_mb := 64,
       internal_port := 80, exposed_port := some 8080,
       docker_id := some "abc123" }] 1 "abc123" (some 9999)
    { id := 1, docker_image_id := none, image := some "nginx:latest",
      status := "running", cpu_limit := 1, memory_limit_mb := 64,
      internal_port := 80, exposed_port := some 8080,
      docker_id := some "abc123" }
    (by simp) rfl rfl rfl rfl

/-- Claim C8: a stop call on a running container with a recorded runtime id
that the runtime reports not-found does not raise: it returns the record
with status stopped and the runtime id cleared, and persists the same
update. -/
theorem c8_stop_absorbs_not_found (rtStop : String → StopRt)
    (db : List ContainerRow) (cid : Nat) (d : String) (row : ContainerRow)
    (hfind : db.find? (fun r => r.id == cid) = some row)
    (hrun : row.status = "running") (hdock : row.docker_id = some d)
    (hnf : rtStop d = StopRt.notFound) :
    stop_container rtStop cid db =
      Except.ok ({ row with status := "stopped", docker_id := none },
        dbUpdate db row.id
          (fun c => { c with status := "stopped", docker_id := none })) ∧
    (dbUpdate db row.id
        (fun c => { c with status := "stopped", docker_id := none })).find?
      (fun r => r.id == cid) =
      some { row with status := "stopped", docker_id := none } := by
  have hrowid : row.id = cid := by simpa using List.find?_some hfind
  subst hrowid
  constructor
  · unfold stop_container
    rw [hfind]
    dsimp only
    rw [if_neg (by simp [hrun] : ¬((row.status != "running") = true))]
    rw [hdock]
    dsimp only
    rw [hnf]
  · rw [find?_dbUpdate_self db row.id
        (fun c => { c with status := "stopped", docker_id := none }) (fun c => rfl),
      hfind]
    rfl

theorem c8_witness :
    stop_container (fun _ => StopRt.notFound) 1
      [{ id := 1, docker_image_id := none, image := some "nginx:latest",
         status := "running", cpu_limit := 1, memory_limit_mb := 64,
         internal_port := 80, exposed_port := some 8080,
         docker_id := some "abc123" }] =
      Except.ok
        ({ id := 1, docker_image_id := none, image := some "nginx:latest",
           status := "stopped", cpu_limit := 1, memory_limit_mb := 64,
           internal_port := 80, exposed_port := some 8080, docker_id := none },
         [{ id := 1, docker_image_id := none, image := some "nginx:latest",
            status := "stopped", cpu_limit := 1, memory_limit_mb := 64,
            internal_port := 80, exposed_port := some 8080, docker_id := none }]) :=
  (c8_stop_absorbs_not_found (fun _ => StopRt.notFound)
    [{ id := 1, docker_image_id := none, image := some "nginx:latest",
       status := "running", cpu_limit := 1, memory_limit_mb := 64,
       internal_port := 80, exposed_port := some 8080,
       docker_id := some "abc123" }] 1 "abc123"
    { id := 1, docker_image_id := none, image := some "nginx:latest",
      status := "running", cpu_limit := 1, memory_limit_mb := 64,
      internal_port := 80, exposed_port := some 8080,
      docker_id := some "abc123" }
    rfl rfl rfl rfl).1

/-- Claim C3 counterexample: a create request referencing an existing
DockerImage row with is_active = false succeeds — no image-inactive error is
raised — and persists a pending container row built from name:tag. -/
theorem c3_counterexample :
    create_container [{ id := 5, name := "web", tag := "latest", is_active := false }]
      (fun _ => RunOutcome.raised) 7 none (some 5) 1 128 80 none false [] =
      Except.ok
        ({ id := 7, docker_image_id := some 5, image := some "web:latest",
           status := "pending", cpu_limit := 1, memory_limit_mb := 128,
           internal_port := 80, exposed_port := none, docker_id := none },
         [{ id := 7, docker_image_id := some 5, image := some "web:latest",
            status := "pending", cpu_limit := 1, memory_limit_mb := 128,
            internal_port := 80, exposed_port := none, docker_id := none }],
         []) := rfl

/-- Claim C3 (amended): a create request that references an image by id uses
the referenced DockerImage row whether or not it is active — if the row
exists, creation proceeds with image reference name:tag and persists a
container row; only an absent row fails, with the 404 image-not-found
error.  No image-inactive check exists. -/
theorem c3_create_ignores_is_active (images : List ImageRow)
    (runtime : RunReq → RunOutcome) (newId : Nat) (image : Option String)
    (cpu mem : Int) (iport : Nat) (hport : Option Nat) (astart : Bool)
    (db : List ContainerRow) :
    (∀ iid row, images.find? (fun r => r.id == iid) = some row →
      ∃ c db' reqs,
        create_container images runtime newId image (some iid) cpu mem iport
          hport astart db = Except.ok (c, db', reqs) ∧
        c.image = some (row.name ++ ":" ++ row.tag) ∧
        c.docker_image_id = some iid ∧
        db'.length = db.length + 1) ∧
    (∀ iid, images.find? (fun r => r.id == iid) = none →
      create_container images runtime newId image (some iid) cpu mem iport
        hport astart db = Except.error (HttpErr.notFound "Docker image not found")) := by
  constructor
  · intro iid row hfind
    unfold create_container
    dsimp only
    rw [hfind]
    dsimp only
    cases astart with
    | false =>
      unfold create_container_rest
      dsimp only
      rw [if_neg (by simp : ¬(false = true))]
      exact ⟨_, _, _, rfl, rfl, rfl, by simp⟩
    | true =>
      unfold create_container_rest
      dsimp only
      rw [if_pos rfl]
      unfold _run_new_container
      dsimp only
      cases hr : runtime { image := some (row.name ++ ":" ++ row.tag), internal_port := iport, host_port := hport, mem_limit := toString (max mem 6) ++ "m" } with
      | accepted did p =>
        exact ⟨_, _, _, rfl, rfl, rfl, by simp [dbUpdate]⟩
      | raised =>
        exact ⟨_, _, _, rfl, rfl, rfl, by simp [dbUpdate]⟩
  · intro iid hfind
    unfold create_container
    dsimp only
    rw [hfind]


theorem c3_amended_witness :
    ∃ c db' reqs,
      create_container [{ id := 5, name := "web", tag := "latest", is_active := false }]
        (fun _ => RunOutcome.raised) 7 none (some 5) 1 128 80 none false [] =
        Except.ok (c, db', reqs) ∧
      c.image = some ("web" ++ ":" ++ "latest") ∧
      c.docker_image_id = some 5 ∧
      db'.length = List.length ([] : List ContainerRow) + 1 :=
  (c3_create_ignores_is_active
      [{ id := 5, name := "web", tag := "latest", is_active := false }]
      (fun _ => RunOutcome.raised) 7 none 1 128 80 none false []).1 5
    { id := 5, name := "web", tag := "latest", is_active := false } rfl

/-- Claim C6: a create request with auto-run never returns a pending record:
the returned container has status running or failed, a get on the returned
database finds exactly that record, and whenever the issued run request
raised the status is failed — the failure is recorded, not raised. -/
theorem c6_auto_run_never_pending (images : List ImageRow)
    (runtime : RunReq → RunOutcome) (newId : Nat) (image : Option String)
    (image_id : Option Nat) (cpu mem : Int) (iport : Nat) (hport : Option Nat)
    (db : List ContainerRow) (c : ContainerRow) (db' : List ContainerRow)
    (reqs : List RunReq)
    (hfresh : ∀ r ∈ db, r.id ≠ newId)
    (hok : create_container images runtime newId image image_id cpu mem iport
      hport true db = Except.ok (c, db', reqs)) :
    (c.status = "running" ∨ c.status = "failed") ∧
    get_container c.id db' = Except.ok c ∧
    (∀ req ∈ reqs, runtime req = RunOutcome.raised → c.status = "failed") := by
  obtain ⟨image_ref, hrest⟩ := create_container_ok_elim images runtime newId image
    image_id cpu mem iport hport true db c db' reqs hok
  obtain ⟨hreqs, hcase⟩ := create_container_rest_true_elim runtime newId image_ref
    image_id cpu mem iport hport db c db' reqs hrest
  rcases hcase with ⟨did, p, hr, hc, hdb⟩ | ⟨hr, hc, hdb⟩
  · have hcid : c.id = newId := by rw [hc]
    have hfind2 : db'.find? (fun r => r.id == newId) =
        some { id := newId, docker_image_id := image_id, image := image_ref,
               status := "running", cpu_limit := cpu, memory_limit_mb := mem,
               internal_port := iport, exposed_port := p, docker_id := some did } := by
      rw [hdb,
        find?_dbUpdate_self _ newId
          (fun x => { x with status := "running", docker_id := some did, exposed_port := p })
          (fun x => rfl),
        find?_append_of_none db _ _ (fun x hx => by simp [hfresh x hx]),
        List.find?_cons_of_pos _ (by simp)]
      rfl
    refine ⟨Or.inl (by rw [hc]), ?_, ?_⟩
    · rw [hcid, hc]
      exact get_container_some newId db' _ hfind2
    · intro req hreq hrun
      rw [hreqs] at hreq
      simp at hreq
      subst hreq
      rw [hr] at hrun
      cases hrun
  · have hcid : c.id = newId := by rw [hc]
    have hfind2 : db'.find? (fun r => r.id == newId) =
        some { id := newId, docker_image_id := image_id, image := image_ref,
               status := "failed", cpu_limit := cpu, memory_limit_mb := mem,
               internal_port := iport, exposed_port := none, docker_id := none } := by
      rw [hdb,
        find?_dbUpdate_self _ newId (fun x => { x with status := "failed" })
          (fun x => rfl),
        find?_append_of_none db _ _ (fun x hx => by simp [hfresh x hx]),
        List.find?_cons_of_pos _ (by simp)]
      rfl
    refine ⟨Or.inr (by rw [hc]), ?_, ?_⟩
    · rw [hcid, hc]
      exact get_container_some newId db' _ hfind2
    · intro req hreq hrun
      rw [hc]

theorem c6_witness :
    (({ id := 7, docker_image_id := none, image := some "nginx:latest",
        status := "failed", cpu_limit := 1, memory_limit_mb := 64,
        internal_port := 80, exposed_port := none,
        docker_id := none } : ContainerRow).status = "running" ∨
      ({ id := 7, docker_image_id := none, image := some "nginx:latest",
         status := "failed", cpu_limit := 1, memory_limit_mb := 64,
         internal_port := 80, exposed_port := none,
         docker_id := none } : ContainerRow).status = "failed") ∧
    get_container 7
      [{ id := 7, docker_image_id := none, image := some "nginx:latest",
         status := "failed", cpu_limit := 1, memory_limit_mb := 64,
         internal_port := 80, exposed_port := none, docker_id := none }] =
      Except.ok { id := 7, docker_image_id := none, image := some "nginx:latest",
                  status := "failed", cpu_limit := 1, memory_limit_mb := 64,
                  internal_port := 80, exposed_port := none, docker_id := none } ∧
    (∀ req ∈ [({ image := some "nginx:latest", internal_port := 80,
                 host_port := none, mem_limit := "64m" } : RunReq)],
      (fun (_ : RunReq) => RunOutcome.raised) req = RunOutcome.raised →
      ({ id := 7, docker_image_id := none, image := some "nginx:latest",
         status := "failed", cpu_limit := 1, memory_limit_mb := 64,
         internal_port := 80, exposed_port := none,
         docker_id := none } : ContainerRow).status = "failed") :=
  c6_auto_run_never_pending [] (fun _ => RunOutcome.raised) 7
    (some "nginx:latest") none 1 64 80 none [] _ _ _
    (fun r hr => absurd hr (List.not_mem_nil r)) rfl

/-- Claim C9: a create request with auto_start = false makes no runtime call
and returns and persists a container with status pending, runtime id null
and exposed port null: the new database is the old one with exactly that
record appended, so the record stays in this state until a later operation
changes it. -/
theorem c9_create_without_auto_start (images : List ImageRow)
    (runtime : RunReq → RunOutcome) (newId : Nat) (image : Option String)
    (image_id : Option Nat) (cpu mem : Int) (iport : Nat) (hport : Option Nat)
    (db : List ContainerRow) (c : ContainerRow) (db' : List ContainerRow)
    (reqs : List RunReq)
    (hok : create_container images runtime newId image image_id cpu mem iport
      hport false db = Except.ok (c, db', reqs)) :
    reqs = [] ∧ c.status = "pending" ∧ c.docker_id = none ∧
    c.exposed_port = none ∧ db' = db ++ [c] := by
  obtain ⟨image_ref, hrest⟩ := create_container_ok_elim images runtime newId image
    image_id cpu mem iport hport false db c db' reqs hok
  obtain ⟨hc, hdb, hreqs⟩ := create_container_rest_false_elim runtime newId
    image_ref image_id cpu mem iport hport db c db' reqs hrest
  exact ⟨hreqs, by rw [hc], by rw [hc], by rw [hc], hdb⟩

theorem c9_witness :
    ([] : List RunReq) = [] ∧
    ({ id := 7, docker_image_id := none, image := some "nginx:latest",
       status := "pending", cpu_limit := 1, memory_limit_mb := 64,
       internal_port := 80, exposed_port := none,
       docker_id := none } : ContainerRow).status = "pending" ∧
    ({ id := 7, docker_image_id := none, image := some "nginx:latest",
       status := "pending", cpu_limit := 1, memory_limit_mb := 64,
       internal_port := 80, exposed_port := none,
       docker_id := none } : ContainerRow).docker_id = none ∧
    ({ id := 7, docker_image_id := none, image := some "nginx:latest",
       status := "pending", cpu_limit := 1, memory_limit_mb := 64,
       internal_port := 80, exposed_port := none,
       docker_id := none } : ContainerRow).exposed_port = none ∧
    [({ id := 7, docker_image_id := none, image := some "nginx:latest",
        status := "pending", cpu_limit := 1, memory_limit_mb := 64,
        internal_port := 80, exposed_port := none,
        docker_id := none } : ContainerRow)] =
      [] ++ [{ id := 7, docker_image_id := none, image := some "nginx:latest",
               status := "pending", cpu_limit := 1, memory_limit_mb := 64,
               internal_port := 80, exposed_port := none, docker_id := none }] :=
  c9_create_without_auto_start [] (fun _ => RunOutcome.raised) 7
    (some "nginx:latest") none 1 64 80 none [] _ _ _ rfl

/-- Claim C10: every run attempt issued by create passes the runtime a
memory limit of max(memory_limit_mb, 6) megabytes; in particular a request
with memory_limit_mb below 6 is launched with the 6 MB floor, with no error
reported.  DockerSDKRuntime.run builds the same mem_limit value. -/
theorem c10_memory_floor (images : List ImageRow)
    (runtime : RunReq → RunOutcome) (newId : Nat) (image : Option String)
    (image_id : Option Nat) (cpu mem : Int) (iport : Nat) (hport : Option Nat)
    (db : List ContainerRow) (c : ContainerRow) (db' : List ContainerRow)
    (reqs : List RunReq)
    (hok : create_container images runtime newId image image_id cpu mem iport
      hport true db = Except.ok (c, db', reqs)) :
    (∃ req, reqs = [req] ∧ req.mem_limit = toString (max mem 6) ++ "m") ∧
    (mem < 6 → ∀ req ∈ reqs, req.mem_limit = "6m") ∧
    (∀ img iport2 hport2,
      (dockerSDKRuntime_run_kwargs img iport2 hport2 mem).mem_limit =
        toString (max mem 6) ++ "m") := by
  obtain ⟨image_ref, hrest⟩ := create_container_ok_elim images runtime newId image
    image_id cpu mem iport hport true db c db' reqs hok
  obtain ⟨hreqs, _⟩ := create_container_rest_true_elim runtime newId image_ref
    image_id cpu mem iport hport db c db' reqs hrest
  refine ⟨⟨_, hreqs, rfl⟩, ?_, fun img iport2 hport2 => rfl⟩
  intro hlt req hreq
  rw [hreqs] at hreq
  simp at hreq
  subst hreq
  show toString (max mem 6) ++ "m" = "6m"
  rw [max_eq_right (le_of_lt hlt)]
  rfl

theorem c10_witness :
    (∃ req, [({ image := some "nginx:latest", internal_port := 80,
                host_port := none, mem_limit := "6m" } : RunReq)] = [req] ∧
      req.mem_limit = toString (max (3 : Int) 6) ++ "m") ∧
    ((3 : Int) < 6 →
      ∀ req ∈ [({ image := some "nginx:latest", internal_port := 80,
                  host_port := none, mem_limit := "6m" } : RunReq)],
        req.mem_limit = "6m") ∧
    (∀ img iport2 hport2,
      (dockerSDKRuntime_run_kwargs img iport2 hport2 (3 : Int)).mem_limit =
        toString (max (3 : Int) 6) ++ "m") :=
  c10_memory_floor [] (fun _ => RunOutcome.raised) 7 (some "nginx:latest") none
    1 3 80 none []
    { id := 7, docker_image_id := none, image := some "nginx:latest",
      status := "failed", cpu_limit := 1, memory_limit_mb := 3,
      internal_port := 80, exposed_port := none, docker_id := none }
    [{ id := 7, docker_image_id := none, image := some "nginx:latest",
       status := "failed", cpu_limit := 1, memory_limit_mb := 3,
       internal_port := 80, exposed_port := none, docker_id := none }]
    [{ image := some "nginx:latest", internal_port := 80, host_port := none,
       mem_limit := "6m" }] rfl
